import Mathlib

/-
Verification development for the AI-Research-Agent repository.

The repository wires a LangGraph workflow (src/plans/full_code.py):
  __start__ -> planner -> researcher
  researcher --(tools_condition)--> tools | synthesizer
  tools --(_should_continue_research)--> researcher | synthesizer
  synthesizer -> END
plus FastAPI handlers and pydantic schemas (src/app/models/schemas.py).

External collaborators (the LLM provider, the web-search tool and the
page-fetch loader/splitter) are modelled as oracle functions; everything
the repository's own code does is translated directly from the source.
State channels in the LangGraph TypedDict have no reducer annotation, so a
node's returned key replaces the previous value (LastValue semantics);
the node update functions below reflect that.
-/

-- A tool call requested by an assistant message.  Tool arguments are
-- modelled as a list of strings; single-argument tools take the first.
structure ToolCall where
  name : String
  args : List String
deriving DecidableEq

-- The message returned by one LLM invocation: its text content and the
-- tool calls it requests (empty list = no tool use).
structure AIMessage where
  content : String
  tool_calls : List ToolCall
deriving DecidableEq

-- Conversation turns (langchain_core.messages).
inductive Message where
  | system (content : String)
  | human (content : String)
  | ai (content : String) (tool_calls : List ToolCall)
  | tool (content : String) (name : String)
deriving DecidableEq

def messageContent : Message → String
  | .system c => c
  | .human c => c
  | .ai c _ => c
  | .tool c _ => c

-- ResearchState (full_code.py lines 102-108).
structure ResearchState where
  messages : List Message
  research_query : String
  findings : List String
  iteration : Nat
  max_iterations : Nat
deriving DecidableEq

-- Oracles for the external collaborators.  The LLM oracle takes the index
-- of the invocation (resolving the provider's nondeterminism) and the
-- conversation passed to `invoke`; it may fail (Except.error = raised
-- exception, carrying str(e)).
abbrev LLM := Nat → List Message → Except String AIMessage

abbrev SearchImpl := String → Except String String

-- The page loader + splitter pipeline, returning the chunk contents
-- (chunking 1000/100 itself is the external splitter's job).
abbrev FetchImpl := String → Except String (List String)

-- ResearchTools.web_search (full_code.py lines 45-51): try the search,
-- and on an exception return "Search error: " + str(e).
def web_search (search : SearchImpl) (query : String) : String :=
  match search query with
  | .ok results => results
  | .error e => "Search error: " ++ e

-- ResearchTools.fetch_webpage (full_code.py lines 53-65): load, split,
-- join the first three chunks; on an exception return "Fetch error: " + str(e).
def fetch_webpage (fetch : FetchImpl) (url : String) : String :=
  match fetch url with
  | .ok chunks => String.intercalate "\n\n" (chunks.take 3)
  | .error e => "Fetch error: " ++ e

-- ResearchTools.summarize_findings (full_code.py lines 67-70):
-- "\n---\n".join(list(set(findings))).  Python's set iterates the distinct
-- elements in an unspecified order; List.dedup is the realization used
-- here (one duplicate-free enumeration of the distinct elements).
def summarize_findings (findings : List String) : String :=
  String.intercalate "\n---\n" findings.dedup

-- Dispatch of one requested tool call, as ToolNode does over get_tools().
def runTool (search : SearchImpl) (fetch : FetchImpl) (c : ToolCall) : String :=
  if c.name = "web_search" then web_search search (c.args.headD "")
  else if c.name = "fetch_webpage" then fetch_webpage fetch (c.args.headD "")
  else if c.name = "summarize_findings" then summarize_findings c.args
  else "Error: " ++ c.name ++ " is not a valid tool."

-- System prompts of the three LLM-calling nodes (content abridged to the
-- leading sentence; the exact prompt text plays no role in any property).
def plannerSystem : String :=
  "You are a research planning expert."

def researcherSystem : String :=
  "You are a thorough researcher."

def synthesizerSystem : String :=
  "You are a research synthesizer."

-- The synthesis human prompt (full_code.py lines 166-173): embeds
-- chr(10).join(findings) when findings is nonempty, else a placeholder.
def synthesisPrompt (findings : List String) : String :=
  "Based on the research conducted, create a final report.\n\nFindings gathered:\n"
    ++ (if findings = [] then "Research in progress"
        else String.intercalate "\n" findings)
    ++ "\n\nCreate a comprehensive report now."

/-
Node functions (ResearchNodes, full_code.py lines 110-183).  Each returns
the updated state; the unreturned keys keep their previous value.  The
natural number threaded alongside counts LLM invocations made so far, so
the LLM oracle can resolve each call independently.
-/

-- planner (lines 117-133): invoke the LLM on [system] + messages, replace
-- messages with [response], increment iteration.
def plannerNode (llm : LLM) (k : Nat) (st : ResearchState) :
    Except String (ResearchState × Nat) :=
  match llm k (Message.system plannerSystem :: st.messages) with
  | .error e => .error e
  | .ok resp =>
    .ok ({ st with
            messages := [Message.ai resp.content resp.tool_calls],
            iteration := st.iteration + 1 }, k + 1)

-- researcher (lines 135-147): invoke the LLM on [system] + messages,
-- replace messages with [response].
def researcherNode (llm : LLM) (k : Nat) (st : ResearchState) :
    Except String (ResearchState × Nat) :=
  match llm k (Message.system researcherSystem :: st.messages) with
  | .error e => .error e
  | .ok resp =>
    .ok ({ st with messages := [Message.ai resp.content resp.tool_calls] }, k + 1)

-- synthesizer (lines 149-183): invoke the LLM on [system, human prompt]
-- (not the running conversation), replace messages with [response],
-- append the response content to findings.
def synthesizerNode (llm : LLM) (k : Nat) (st : ResearchState) :
    Except String (ResearchState × Nat) :=
  match llm k [Message.system synthesizerSystem,
               Message.human (synthesisPrompt st.findings)] with
  | .error e => .error e
  | .ok resp =>
    .ok ({ st with
            messages := [Message.ai resp.content resp.tool_calls],
            findings := st.findings ++ [resp.content] }, k + 1)

-- The prebuilt ToolNode: execute every tool call requested by the last
-- message, replacing messages with the resulting tool messages.  In the
-- graph this node is only entered when tools_condition saw tool calls on
-- the last message; the fallthrough branch is unreachable there.
def toolsNode (search : SearchImpl) (fetch : FetchImpl) (st : ResearchState) :
    ResearchState :=
  match st.messages.getLast? with
  | some (Message.ai _ calls) =>
    { st with messages := calls.map (fun c => Message.tool (runTool search fetch c) c.name) }
  | _ => st

-- The graph's node names (full_code.py _build_graph, lines 219-257).
inductive Node where
  | planner
  | researcher
  | tools
  | synthesizer
deriving DecidableEq

-- langgraph.prebuilt.tools_condition: route to "tools" when the last
-- message requests tool calls, else to "__end__" (mapped to synthesizer
-- by the conditional-edge dictionary at lines 236-243).
def tools_condition (st : ResearchState) : Bool :=
  match st.messages.getLast? with
  | some (Message.ai _ calls) => decide (calls ≠ [])
  | _ => false

-- _should_continue_research (full_code.py lines 259-266): synthesize once
-- iteration >= max_iterations, else loop back to the researcher.
def should_continue_research (st : ResearchState) : Node :=
  if st.max_iterations ≤ st.iteration then Node.synthesizer else Node.researcher

/-
The compiled graph's execution, as a fueled interpreter.  It returns the
list of entered configurations (node about to run, state on entry) and
the outcome: `.error e` when an LLM call raised (the exception propagates
out of graph.invoke), `.ok (some final)` when END was reached, and
`.ok none` when the fuel ran out (the real library raises its recursion
-limit exception there; see recursionLimitMessage below).
-/
def runFrom (llm : LLM) (search : SearchImpl) (fetch : FetchImpl) :
    Nat → Nat → Node → ResearchState →
      List (Node × ResearchState) × Except String (Option ResearchState)
  | 0, _, n, st => ([(n, st)], .ok none)
  | fuel + 1, k, .planner, st =>
    match plannerNode llm k st with
    | .error e => ([(.planner, st)], .error e)
    | .ok (st', k') =>
      let r := runFrom llm search fetch fuel k' .researcher st'
      ((.planner, st) :: r.1, r.2)
  | fuel + 1, k, .researcher, st =>
    match researcherNode llm k st with
    | .error e => ([(.researcher, st)], .error e)
    | .ok (st', k') =>
      let r := runFrom llm search fetch fuel k'
        (if tools_condition st' then Node.tools else Node.synthesizer) st'
      ((.researcher, st) :: r.1, r.2)
  | fuel + 1, k, .tools, st =>
    let st' := toolsNode search fetch st
    let r := runFrom llm search fetch fuel k (should_continue_research st') st'
    ((.tools, st) :: r.1, r.2)
  | _ + 1, k, .synthesizer, st =>
    match synthesizerNode llm k st with
    | .error e => ([(.synthesizer, st)], .error e)
    | .ok (st', _) => ([(.synthesizer, st)], .ok (some st'))

-- The dictionary returned by ResearchAssistant.research (lines 292-297).
structure ResearchResult where
  query : String
  report : String
  iterations : Nat
  findings_count : Nat
deriving DecidableEq

-- ResearchAssistant.research (full_code.py lines 268-297): build the
-- initial state, invoke the graph from __start__ -> planner, and extract
-- the final report from the last message.
-- The initial_state dictionary built by research (lines 279-285).
def initialState (query : String) (max_iterations : Nat) : ResearchState :=
  { messages := [Message.human query],
    research_query := query,
    findings := [],
    iteration := 0,
    max_iterations := max_iterations }

def research (llm : LLM) (search : SearchImpl) (fetch : FetchImpl)
    (fuel : Nat) (query : String) (max_iterations : Nat) :
    List (Node × ResearchState) × Except String (Option ResearchResult) :=
  let r := runFrom llm search fetch fuel 0 Node.planner (initialState query max_iterations)
  (r.1, r.2.map (Option.map (fun final =>
    { query := query,
      report := messageContent (final.messages.getLastD (Message.human "")),
      iterations := final.iteration,
      findings_count := final.findings.length })))

/-
HTTP layer (api/main.py section of full_code.py, lines 352-491).
-/

structure HTTPError where
  status : Nat
  detail : String
deriving DecidableEq

-- A validated ResearchRequest as the handlers see it: pydantic has
-- already applied the default of 3 for an omitted max_iterations.
structure ResearchRequest where
  query : String
  max_iterations : Nat
deriving DecidableEq

-- ResearchResponse (lines 320-327).  processing_time is external
-- wall-clock time and is not modelled.
structure ResearchResponseBody where
  success : Bool
  query : String
  report : String
  iterations : Nat
  findings_count : Nat
deriving DecidableEq

-- Stands in for str(e) of the graph library's recursion-limit exception,
-- raised when the run exceeds its step budget (our fuel running out).
def recursionLimitMessage : String := "GraphRecursionError"

-- conduct_research (full_code.py lines 424-462): 503 when the agent
-- singleton is absent; otherwise run the research and wrap the result,
-- mapping any exception e to HTTP 500 "Research failed: " + str(e).
def conduct_research (llm : LLM) (search : SearchImpl) (fetch : FetchImpl)
    (fuel : Nat) (agentInitialized : Bool) (req : ResearchRequest) :
    Except HTTPError ResearchResponseBody :=
  if !agentInitialized then .error ⟨503, "Agent not initialized"⟩
  else
    match (research llm search fetch fuel req.query req.max_iterations).2 with
    | .error e => .error ⟨500, "Research failed: " ++ e⟩
    | .ok none => .error ⟨500, "Research failed: " ++ recursionLimitMessage⟩
    | .ok (some res) =>
      .ok { success := true,
            query := res.query,
            report := res.report,
            iterations := res.iterations,
            findings_count := res.findings_count }

-- conduct_research_streaming (full_code.py lines 464-491): a
-- StreamingResponse (HTTP 200) whose generator yields the start event,
-- then on success the report event followed by the DONE sentinel, and on
-- an exception a single error event (and nothing after it).
def conduct_research_streaming (llm : LLM) (search : SearchImpl)
    (fetch : FetchImpl) (fuel : Nat) (req : ResearchRequest) :
    Nat × List String :=
  (200,
   ("data: Starting research for: " ++ req.query ++ "\n\n") ::
     match (research llm search fetch fuel req.query req.max_iterations).2 with
     | .ok (some res) =>
       ["data: " ++ res.report ++ "\n\n", "data: [DONE]\n\n"]
     | .ok none => ["data: Error: " ++ recursionLimitMessage ++ "\n\n"]
     | .error e => ["data: Error: " ++ e ++ "\n\n"])

-- verify_api_key (full_code.py lines 399-404): compare the X-API-Key
-- header against os.getenv("API_KEY", "your-secret-key").
def verify_api_key (envApiKey : Option String) (x_api_key : String) :
    Except HTTPError String :=
  let expected := envApiKey.getD "your-secret-key"
  if x_api_key ≠ expected then .error ⟨401, "Invalid API key"⟩
  else .ok x_api_key

/-
Schema validation (src/app/models/schemas.py and the pydantic models in
full_code.py).  Acceptance depends only on the query's character count
and the supplied max_iterations (none = field omitted).
-/

-- AgentInput (schemas.py lines 15-16): query min_length 5, max_length
-- 1000; max_iterations ge 1, le 10, default 3.
def agentInputAccepts (query : String) (mi : Option Int) : Bool :=
  decide (5 ≤ query.length) && decide (query.length ≤ 1000) &&
    (match mi with
     | none => true
     | some m => decide (1 ≤ m) && decide (m ≤ 10))

-- ResearchRequest (full_code.py lines 307-310): query min_length 5 and
-- no max_length; max_iterations ge 1, le 10, default 3.
def researchRequestAccepts (query : String) (mi : Option Int) : Bool :=
  decide (5 ≤ query.length) &&
    (match mi with
     | none => true
     | some m => decide (1 ≤ m) && decide (m ≤ 10))

-- The value the validated model carries for max_iterations: the field's
-- default 3 when omitted, the supplied value otherwise.
def appliedMaxIterations (mi : Option Int) : Int :=
  mi.getD 3

-- The result payload of ToolCallResult: a string, a structured mapping
-- (modelled as an association list), or null.
inductive ToolResultValue where
  | nullv
  | str (s : String)
  | dict (m : List (String × String))
deriving DecidableEq

-- The allow_empty_result field validator (schemas.py lines 93-98):
-- None becomes the empty string, everything else passes through.
def allow_empty_result : ToolResultValue → ToolResultValue
  | .nullv => .str ""
  | v => v

-- ToolCallResult (schemas.py lines 78-98); construction runs the
-- validator on the result field.
structure ToolCallResult where
  tool_name : String
  success : Bool
  result : ToolResultValue
deriving DecidableEq

def mkToolCallResult (tool_name : String) (success : Bool)
    (result : ToolResultValue) : ToolCallResult :=
  { tool_name := tool_name, success := success,
    result := allow_empty_result result }

/-
Trace observations used by the claims.
-/

-- Number of configurations in a trace that entered the given node.
def nodeCount (n : Node) (tr : List (Node × ResearchState)) : Nat :=
  tr.countP (fun p => decide (p.1 = n))

-- Configurations that enter the researcher with the iteration counter
-- already at (or past) the bound.
def researcherAtBound (p : Node × ResearchState) : Bool :=
  decide (p.1 = Node.researcher) && decide (p.2.max_iterations ≤ p.2.iteration)

def researcherAtBoundCount (tr : List (Node × ResearchState)) : Nat :=
  tr.countP researcherAtBound

-- Whether the trace ever steps from the tools node directly into the
-- synthesizer (the continuation decision firing the iteration bound).
def hasToolsToSynth : List (Node × ResearchState) → Bool
  | a :: b :: rest =>
    (decide (a.1 = Node.tools) && decide (b.1 = Node.synthesizer))
      || hasToolsToSynth (b :: rest)
  | _ => false

/-
Concrete oracles used to exhibit runs of the model.
-/

-- An LLM that always answers without requesting tools.
def llmOkNoTools : LLM := fun _ _ => .ok ⟨"stub report", []⟩

-- An LLM whose researcher pass (invocation 1) requests one web search,
-- and which afterwards answers without tools.
def llmOneSearch : LLM := fun k _ =>
  if k = 1 then .ok ⟨"searching", [⟨"web_search", ["quantum computing"]⟩]⟩
  else .ok ⟨"stub report", []⟩

-- An LLM whose every invocation raises.
def llmFail : LLM := fun _ _ => .error "boom"

def searchOk : SearchImpl := fun q => .ok ("results for " ++ q)

def searchFail : SearchImpl := fun _ => .error "rate limited"

def fetchOk : FetchImpl := fun _ => .ok ["chunk one", "chunk two"]

def fetchFail : FetchImpl := fun _ => .error "connection refused"

/-
Basic facts about the individual nodes.
-/

lemma plannerNode_ok_fields {llm : LLM} {k : Nat} {st st' : ResearchState} {k' : Nat}
    (h : plannerNode llm k st = .ok (st', k')) :
    st'.iteration = st.iteration + 1 ∧ st'.max_iterations = st.max_iterations ∧
      st'.findings = st.findings := by
  unfold plannerNode at h
  cases hl : llm k (Message.system plannerSystem :: st.messages) with
  | error e => rw [hl] at h; cases h
  | ok resp =>
    rw [hl] at h
    simp only [Except.ok.injEq, Prod.mk.injEq] at h
    obtain ⟨h1, -⟩ := h
    subst h1
    exact ⟨rfl, rfl, rfl⟩

lemma plannerNode_error {llm : LLM} {k : Nat} {st : ResearchState} {e : String}
    (h : plannerNode llm k st = .error e) :
    llm k (Message.system plannerSystem :: st.messages) = .error e := by
  unfold plannerNode at h
  cases hl : llm k (Message.system plannerSystem :: st.messages) with
  | error e2 => rw [hl] at h; cases h; rfl
  | ok resp => rw [hl] at h; cases h

lemma researcherNode_ok_fields {llm : LLM} {k : Nat} {st st' : ResearchState} {k' : Nat}
    (h : researcherNode llm k st = .ok (st', k')) :
    st'.iteration = st.iteration ∧ st'.max_iterations = st.max_iterations ∧
      st'.findings = st.findings := by
  unfold researcherNode at h
  cases hl : llm k (Message.system researcherSystem :: st.messages) with
  | error e => rw [hl] at h; cases h
  | ok resp =>
    rw [hl] at h
    simp only [Except.ok.injEq, Prod.mk.injEq] at h
    obtain ⟨h1, -⟩ := h
    subst h1
    exact ⟨rfl, rfl, rfl⟩

lemma researcherNode_error {llm : LLM} {k : Nat} {st : ResearchState} {e : String}
    (h : researcherNode llm k st = .error e) :
    llm k (Message.system researcherSystem :: st.messages) = .error e := by
  unfold researcherNode at h
  cases hl : llm k (Message.system researcherSystem :: st.messages) with
  | error e2 => rw [hl] at h; cases h; rfl
  | ok resp => rw [hl] at h; cases h

lemma synthesizerNode_ok_fields {llm : LLM} {k : Nat} {st st' : ResearchState} {k' : Nat}
    (h : synthesizerNode llm k st = .ok (st', k')) :
    st'.iteration = st.iteration ∧ st'.max_iterations = st.max_iterations ∧
      st'.findings.length = st.findings.length + 1 := by
  unfold synthesizerNode at h
  cases hl : llm k [Message.system synthesizerSystem,
      Message.human (synthesisPrompt st.findings)] with
  | error e => rw [hl] at h; cases h
  | ok resp =>
    rw [hl] at h
    simp only [Except.ok.injEq, Prod.mk.injEq] at h
    obtain ⟨h1, -⟩ := h
    subst h1
    refine ⟨rfl, rfl, ?_⟩
    simp

lemma synthesizerNode_error {llm : LLM} {k : Nat} {st : ResearchState} {e : String}
    (h : synthesizerNode llm k st = .error e) :
    llm k [Message.system synthesizerSystem,
      Message.human (synthesisPrompt st.findings)] = .error e := by
  unfold synthesizerNode at h
  cases hl : llm k [Message.system synthesizerSystem,
      Message.human (synthesisPrompt st.findings)] with
  | error e2 => rw [hl] at h; cases h; rfl
  | ok resp => rw [hl] at h; cases h

lemma toolsNode_fields (search : SearchImpl) (fetch : FetchImpl) (st : ResearchState) :
    (toolsNode search fetch st).iteration = st.iteration ∧
    (toolsNode search fetch st).max_iterations = st.max_iterations ∧
    (toolsNode search fetch st).findings = st.findings := by
  unfold toolsNode
  cases h : st.messages.getLast? with
  | none => exact ⟨rfl, rfl, rfl⟩
  | some m => cases m <;> exact ⟨rfl, rfl, rfl⟩

lemma should_continue_research_ne_planner (st : ResearchState) :
    should_continue_research st ≠ Node.planner := by
  unfold should_continue_research
  split <;> simp

lemma should_continue_research_at_bound {st : ResearchState}
    (h : st.max_iterations ≤ st.iteration) :
    should_continue_research st = Node.synthesizer := by
  unfold should_continue_research
  rw [if_pos h]

lemma should_continue_research_below_bound {st : ResearchState}
    (h : st.iteration < st.max_iterations) :
    should_continue_research st = Node.researcher := by
  unfold should_continue_research
  rw [if_neg (by omega)]

/-
Unfolding equations for the graph interpreter, one per case.
-/

lemma runFrom_zero (llm : LLM) (search : SearchImpl) (fetch : FetchImpl)
    (k : Nat) (n : Node) (st : ResearchState) :
    runFrom llm search fetch 0 k n st = ([(n, st)], .ok none) := by
  simp [runFrom]

lemma runFrom_succ_planner_error {llm : LLM} {search : SearchImpl} {fetch : FetchImpl}
    {m k : Nat} {st : ResearchState} {e : String}
    (h : plannerNode llm k st = .error e) :
    runFrom llm search fetch (m + 1) k Node.planner st =
      ([(Node.planner, st)], .error e) := by
  simp [runFrom, h]

lemma runFrom_succ_planner_ok {llm : LLM} {search : SearchImpl} {fetch : FetchImpl}
    {m k : Nat} {st st' : ResearchState} {k' : Nat}
    (h : plannerNode llm k st = .ok (st', k')) :
    runFrom llm search fetch (m + 1) k Node.planner st =
      ((Node.planner, st) :: (runFrom llm search fetch m k' Node.researcher st').1,
       (runFrom llm search fetch m k' Node.researcher st').2) := by
  simp [runFrom, h]

lemma runFrom_succ_researcher_error {llm : LLM} {search : SearchImpl} {fetch : FetchImpl}
    {m k : Nat} {st : ResearchState} {e : String}
    (h : researcherNode llm k st = .error e) :
    runFrom llm search fetch (m + 1) k Node.researcher st =
      ([(Node.researcher, st)], .error e) := by
  simp [runFrom, h]

lemma runFrom_succ_researcher_ok {llm : LLM} {search : SearchImpl} {fetch : FetchImpl}
    {m k : Nat} {st st' : ResearchState} {k' : Nat}
    (h : researcherNode llm k st = .ok (st', k')) :
    runFrom llm search fetch (m + 1) k Node.researcher st =
      ((Node.researcher, st) ::
        (runFrom llm search fetch m k'
          (if tools_condition st' then Node.tools else Node.synthesizer) st').1,
       (runFrom llm search fetch m k'
          (if tools_condition st' then Node.tools else Node.synthesizer) st').2) := by
  simp [runFrom, h]

lemma runFrom_succ_tools (llm : LLM) (search : SearchImpl) (fetch : FetchImpl)
    (m k : Nat) (st : ResearchState) :
    runFrom llm search fetch (m + 1) k Node.tools st =
      ((Node.tools, st) ::
        (runFrom llm search fetch m k
          (should_continue_research (toolsNode search fetch st))
          (toolsNode search fetch st)).1,
       (runFrom llm search fetch m k
          (should_continue_research (toolsNode search fetch st))
          (toolsNode search fetch st)).2) := by
  simp [runFrom]

lemma runFrom_succ_synthesizer_error {llm : LLM} {search : SearchImpl} {fetch : FetchImpl}
    {m k : Nat} {st : ResearchState} {e : String}
    (h : synthesizerNode llm k st = .error e) :
    runFrom llm search fetch (m + 1) k Node.synthesizer st =
      ([(Node.synthesizer, st)], .error e) := by
  simp [runFrom, h]

lemma runFrom_succ_synthesizer_ok {llm : LLM} {search : SearchImpl} {fetch : FetchImpl}
    {m k : Nat} {st st' : ResearchState} {k' : Nat}
    (h : synthesizerNode llm k st = .ok (st', k')) :
    runFrom llm search fetch (m + 1) k Node.synthesizer st =
      ([(Node.synthesizer, st)], .ok (some st')) := by
  simp [runFrom, h]

lemma runFrom_head (llm : LLM) (search : SearchImpl) (fetch : FetchImpl) :
    ∀ fuel k n st, (runFrom llm search fetch fuel k n st).1.head? = some (n, st) := by
  intro fuel k n st
  cases fuel with
  | zero => rw [runFrom_zero]; rfl
  | succ m =>
    cases n with
    | planner =>
      cases h : plannerNode llm k st with
      | error e => rw [runFrom_succ_planner_error h]; rfl
      | ok p =>
        obtain ⟨st', k'⟩ := p
        rw [runFrom_succ_planner_ok h]; rfl
    | researcher =>
      cases h : researcherNode llm k st with
      | error e => rw [runFrom_succ_researcher_error h]; rfl
      | ok p =>
        obtain ⟨st', k'⟩ := p
        rw [runFrom_succ_researcher_ok h]; rfl
    | tools => rw [runFrom_succ_tools]; rfl
    | synthesizer =>
      cases h : synthesizerNode llm k st with
      | error e => rw [runFrom_succ_synthesizer_error h]; rfl
      | ok p =>
        obtain ⟨st', k'⟩ := p
        rw [runFrom_succ_synthesizer_ok h]; rfl

lemma nodeCount_nil (n : Node) : nodeCount n [] = 0 := rfl

lemma nodeCount_cons_ne {a : Node × ResearchState} {n : Node} (h : a.1 ≠ n)
    (l : List (Node × ResearchState)) : nodeCount n (a :: l) = nodeCount n l := by
  simp [nodeCount, List.countP_cons, h]

lemma nodeCount_cons_eq {a : Node × ResearchState} {n : Node} (h : a.1 = n)
    (l : List (Node × ResearchState)) : nodeCount n (a :: l) = nodeCount n l + 1 := by
  simp [nodeCount, List.countP_cons, h]

/-
Invariants of executions that start anywhere other than the planner:
the iteration counter and the bound are frozen, the planner is never
entered, and a completed suffix performs exactly one synthesis pass,
growing findings by exactly one element.
-/
lemma runFrom_from_nonplanner (llm : LLM) (search : SearchImpl) (fetch : FetchImpl) :
    ∀ fuel k n st, n ≠ Node.planner →
      (∀ p ∈ (runFrom llm search fetch fuel k n st).1,
          p.2.iteration = st.iteration ∧ p.2.max_iterations = st.max_iterations) ∧
      nodeCount Node.planner (runFrom llm search fetch fuel k n st).1 = 0 ∧
      (∀ final, (runFrom llm search fetch fuel k n st).2 = Except.ok (some final) →
          final.iteration = st.iteration ∧ final.max_iterations = st.max_iterations ∧
          final.findings.length = st.findings.length + 1 ∧
          nodeCount Node.synthesizer (runFrom llm search fetch fuel k n st).1 = 1) := by
  intro fuel
  induction fuel with
  | zero =>
    intro k n st hn
    rw [runFrom_zero]
    refine ⟨?_, ?_, ?_⟩
    · intro p hp
      simp only [List.mem_singleton] at hp
      subst hp
      exact ⟨rfl, rfl⟩
    · exact nodeCount_cons_ne hn []
    · intro final hfin
      simp at hfin
  | succ m ih =>
    intro k n st hn
    cases n with
    | planner => exact absurd rfl hn
    | researcher =>
      cases h : researcherNode llm k st with
      | error e =>
        rw [runFrom_succ_researcher_error h]
        refine ⟨?_, ?_, ?_⟩
        · intro p hp
          simp only [List.mem_singleton] at hp
          subst hp
          exact ⟨rfl, rfl⟩
        · exact nodeCount_cons_ne (by simp) []
        · intro final hfin
          simp at hfin
      | ok pr =>
        obtain ⟨st', k'⟩ := pr
        obtain ⟨hi, hm, hf⟩ := researcherNode_ok_fields h
        have hnp : (if tools_condition st' then Node.tools else Node.synthesizer) ≠
            Node.planner := by
          split <;> simp
        obtain ⟨ih1, ih2, ih3⟩ := ih k'
          (if tools_condition st' then Node.tools else Node.synthesizer) st' hnp
        rw [runFrom_succ_researcher_ok h]
        refine ⟨?_, ?_, ?_⟩
        · intro p hp
          simp only [List.mem_cons] at hp
          rcases hp with hp | hp
          · subst hp
            exact ⟨rfl, rfl⟩
          · obtain ⟨a, b⟩ := ih1 p hp
            exact ⟨by rw [a, hi], by rw [b, hm]⟩
        · rw [nodeCount_cons_ne (by simp)]
          exact ih2
        · intro final hfin
          obtain ⟨a, b, c, d⟩ := ih3 final hfin
          refine ⟨by rw [a, hi], by rw [b, hm], by rw [c, hf], ?_⟩
          rw [nodeCount_cons_ne (by simp)]
          exact d
    | tools =>
      obtain ⟨ti, tm, tf⟩ := toolsNode_fields search fetch st
      have hnp : should_continue_research (toolsNode search fetch st) ≠ Node.planner :=
        should_continue_research_ne_planner _
      obtain ⟨ih1, ih2, ih3⟩ := ih k
        (should_continue_research (toolsNode search fetch st)) (toolsNode search fetch st) hnp
      rw [runFrom_succ_tools]
      refine ⟨?_, ?_, ?_⟩
      · intro p hp
        simp only [List.mem_cons] at hp
        rcases hp with hp | hp
        · subst hp
          exact ⟨rfl, rfl⟩
        · obtain ⟨a, b⟩ := ih1 p hp
          exact ⟨by rw [a, ti], by rw [b, tm]⟩
      · rw [nodeCount_cons_ne (by simp)]
        exact ih2
      · intro final hfin
        obtain ⟨a, b, c, d⟩ := ih3 final hfin
        refine ⟨by rw [a, ti], by rw [b, tm], by rw [c, tf], ?_⟩
        rw [nodeCount_cons_ne (by simp)]
        exact d
    | synthesizer =>
      cases h : synthesizerNode llm k st with
      | error e =>
        rw [runFrom_succ_synthesizer_error h]
        refine ⟨?_, ?_, ?_⟩
        · intro p hp
          simp only [List.mem_singleton] at hp
          subst hp
          exact ⟨rfl, rfl⟩
        · exact nodeCount_cons_ne (by simp) []
        · intro final hfin
          simp at hfin
      | ok pr =>
        obtain ⟨st', k'⟩ := pr
        obtain ⟨si, sm, sf⟩ := synthesizerNode_ok_fields h
        rw [runFrom_succ_synthesizer_ok h]
        refine ⟨?_, ?_, ?_⟩
        · intro p hp
          simp only [List.mem_singleton] at hp
          subst hp
          exact ⟨rfl, rfl⟩
        · exact nodeCount_cons_ne (by simp) []
        · intro final hfin
          simp only [Except.ok.injEq, Option.some.injEq] at hfin
          subst hfin
          exact ⟨si, sm, sf, nodeCount_cons_eq rfl []⟩

lemma hasToolsToSynth_cons (a b : Node × ResearchState) (l : List (Node × ResearchState)) :
    hasToolsToSynth (a :: b :: l) =
      ((decide (a.1 = Node.tools) && decide (b.1 = Node.synthesizer))
        || hasToolsToSynth (b :: l)) := rfl

lemma hasToolsToSynth_singleton (a : Node × ResearchState) :
    hasToolsToSynth [a] = false := rfl

/-
Once the iteration counter has reached the bound, an execution that does
not pass through the planner enters the researcher at most once (exactly
the pending entry when it starts there, none otherwise).
-/
lemma runFrom_atBound_researcherCount (llm : LLM) (search : SearchImpl) (fetch : FetchImpl) :
    ∀ fuel k n st, n ≠ Node.planner → st.max_iterations ≤ st.iteration →
      nodeCount Node.researcher (runFrom llm search fetch fuel k n st).1 ≤
        (if n = Node.researcher then 1 else 0) := by
  intro fuel
  induction fuel with
  | zero =>
    intro k n st hn hb
    rw [runFrom_zero]
    dsimp only
    rcases eq_or_ne n Node.researcher with hr | hr
    · subst hr
      rw [@nodeCount_cons_eq (Node.researcher, st) Node.researcher rfl, nodeCount_nil,
        if_pos rfl]
    · rw [nodeCount_cons_ne hr, nodeCount_nil, if_neg hr]
  | succ m ih =>
    intro k n st hn hb
    cases n with
    | planner => exact absurd rfl hn
    | researcher =>
      cases h : researcherNode llm k st with
      | error e =>
        rw [runFrom_succ_researcher_error h]
        dsimp only
        rw [@nodeCount_cons_eq (Node.researcher, st) Node.researcher rfl, nodeCount_nil,
          if_pos rfl]
      | ok pr =>
        obtain ⟨st', k'⟩ := pr
        obtain ⟨hi, hm, -⟩ := researcherNode_ok_fields h
        have hb' : st'.max_iterations ≤ st'.iteration := by rw [hi, hm]; exact hb
        rw [runFrom_succ_researcher_ok h]
        dsimp only
        rw [@nodeCount_cons_eq (Node.researcher, st) Node.researcher rfl, if_pos rfl]
        cases htc : tools_condition st' with
        | true =>
          simp only [htc, if_true]
          have hle := ih k' Node.tools st' (by simp) hb'
          rw [if_neg (by simp)] at hle
          omega
        | false =>
          simp only [htc, Bool.false_eq_true, if_false]
          have hle := ih k' Node.synthesizer st' (by simp) hb'
          rw [if_neg (by simp)] at hle
          omega
    | tools =>
      obtain ⟨ti, tm, -⟩ := toolsNode_fields search fetch st
      have hb' : (toolsNode search fetch st).max_iterations ≤
          (toolsNode search fetch st).iteration := by rw [ti, tm]; exact hb
      rw [runFrom_succ_tools]
      dsimp only
      rw [nodeCount_cons_ne (by simp), should_continue_research_at_bound hb']
      have hle := ih k Node.synthesizer (toolsNode search fetch st) (by simp) hb'
      rw [if_neg (by simp)] at hle
      rw [if_neg (by simp)]
      exact hle
    | synthesizer =>
      cases h : synthesizerNode llm k st with
      | error e =>
        rw [runFrom_succ_synthesizer_error h]
        dsimp only
        rw [nodeCount_cons_ne (by simp), nodeCount_nil, if_neg (by simp)]
      | ok pr =>
        obtain ⟨st', k'⟩ := pr
        rw [runFrom_succ_synthesizer_ok h]
        dsimp only
        rw [nodeCount_cons_ne (by simp), nodeCount_nil, if_neg (by simp)]

/-
While the iteration counter is still below the bound, the continuation
decision after the tools node always chooses the researcher, so the trace
never steps from the tools node straight into the synthesizer.
-/
lemma runFrom_below_bound_noToolsToSynth (llm : LLM) (search : SearchImpl)
    (fetch : FetchImpl) :
    ∀ fuel k n st, n ≠ Node.planner → st.iteration < st.max_iterations →
      hasToolsToSynth (runFrom llm search fetch fuel k n st).1 = false := by
  intro fuel
  induction fuel with
  | zero =>
    intro k n st hn hb
    rw [runFrom_zero]
    exact hasToolsToSynth_singleton _
  | succ m ih =>
    intro k n st hn hb
    cases n with
    | planner => exact absurd rfl hn
    | researcher =>
      cases h : researcherNode llm k st with
      | error e =>
        rw [runFrom_succ_researcher_error h]
        exact hasToolsToSynth_singleton _
      | ok pr =>
        obtain ⟨st', k'⟩ := pr
        obtain ⟨hi, hm, -⟩ := researcherNode_ok_fields h
        have hb' : st'.iteration < st'.max_iterations := by rw [hi, hm]; exact hb
        have hnp : (if tools_condition st' then Node.tools else Node.synthesizer) ≠
            Node.planner := by split <;> simp
        have hsub := ih k'
          (if tools_condition st' then Node.tools else Node.synthesizer) st' hnp hb'
        rw [runFrom_succ_researcher_ok h]
        dsimp only
        cases hls : (runFrom llm search fetch m k'
            (if tools_condition st' then Node.tools else Node.synthesizer) st').1 with
        | nil =>
          have hhd := runFrom_head llm search fetch m k'
            (if tools_condition st' then Node.tools else Node.synthesizer) st'
          rw [hls] at hhd
          simp at hhd
        | cons b rest =>
          rw [hls] at hsub
          rw [hasToolsToSynth_cons, hsub]
          simp
    | tools =>
      obtain ⟨ti, tm, -⟩ := toolsNode_fields search fetch st
      have hb' : (toolsNode search fetch st).iteration <
          (toolsNode search fetch st).max_iterations := by rw [ti, tm]; exact hb
      have hnext : should_continue_research (toolsNode search fetch st) = Node.researcher :=
        should_continue_research_below_bound hb'
      have hsub := ih k (should_continue_research (toolsNode search fetch st))
        (toolsNode search fetch st) (should_continue_research_ne_planner _) hb'
      have hhd := runFrom_head llm search fetch m k
        (should_continue_research (toolsNode search fetch st)) (toolsNode search fetch st)
      rw [runFrom_succ_tools]
      dsimp only
      cases hls : (runFrom llm search fetch m k
          (should_continue_research (toolsNode search fetch st))
          (toolsNode search fetch st)).1 with
      | nil =>
        rw [hls] at hhd
        simp at hhd
      | cons b rest =>
        rw [hls] at hsub
        rw [hls] at hhd
        simp only [List.head?_cons, Option.some.injEq] at hhd
        rw [hasToolsToSynth_cons, hsub]
        have hb1 : b.1 = Node.researcher := by
          rw [hhd]
          exact hnext
        rw [hb1]
        simp
    | synthesizer =>
      cases h : synthesizerNode llm k st with
      | error e =>
        rw [runFrom_succ_synthesizer_error h]
        exact hasToolsToSynth_singleton _
      | ok pr =>
        obtain ⟨st', k'⟩ := pr
        rw [runFrom_succ_synthesizer_ok h]
        exact hasToolsToSynth_singleton _

/-
Exceptions escaping graph.invoke always originate in an LLM invocation:
the tool layer catches its own failures, so no choice of search or fetch
oracle can abort a run.
-/
lemma runFrom_error_from_llm (llm : LLM) (search : SearchImpl) (fetch : FetchImpl) :
    ∀ fuel k n st e, (runFrom llm search fetch fuel k n st).2 = .error e →
      ∃ j msgs, llm j msgs = .error e := by
  intro fuel
  induction fuel with
  | zero =>
    intro k n st e he
    rw [runFrom_zero] at he
    cases he
  | succ m ih =>
    intro k n st e he
    cases n with
    | planner =>
      cases h : plannerNode llm k st with
      | error e2 =>
        rw [runFrom_succ_planner_error h] at he
        cases he
        exact ⟨k, _, plannerNode_error h⟩
      | ok pr =>
        obtain ⟨st', k'⟩ := pr
        rw [runFrom_succ_planner_ok h] at he
        exact ih k' Node.researcher st' e he
    | researcher =>
      cases h : researcherNode llm k st with
      | error e2 =>
        rw [runFrom_succ_researcher_error h] at he
        cases he
        exact ⟨k, _, researcherNode_error h⟩
      | ok pr =>
        obtain ⟨st', k'⟩ := pr
        rw [runFrom_succ_researcher_ok h] at he
        exact ih k' _ st' e he
    | tools =>
      rw [runFrom_succ_tools] at he
      exact ih k _ _ e he
    | synthesizer =>
      cases h : synthesizerNode llm k st with
      | error e2 =>
        rw [runFrom_succ_synthesizer_error h] at he
        cases he
        exact ⟨k, _, synthesizerNode_error h⟩
      | ok pr =>
        obtain ⟨st', k'⟩ := pr
        rw [runFrom_succ_synthesizer_ok h] at he
        cases he

lemma research_fst (llm : LLM) (search : SearchImpl) (fetch : FetchImpl)
    (fuel : Nat) (q : String) (mi : Nat) :
    (research llm search fetch fuel q mi).1 =
      (runFrom llm search fetch fuel 0 Node.planner (initialState q mi)).1 := rfl

lemma research_snd_ok_some {llm : LLM} {search : SearchImpl} {fetch : FetchImpl}
    {fuel : Nat} {q : String} {mi : Nat} {res : ResearchResult}
    (h : (research llm search fetch fuel q mi).2 = .ok (some res)) :
    ∃ final, (runFrom llm search fetch fuel 0 Node.planner (initialState q mi)).2 =
        .ok (some final) ∧
      res.iterations = final.iteration ∧ res.findings_count = final.findings.length := by
  have h2 : ((runFrom llm search fetch fuel 0 Node.planner (initialState q mi)).2).map
      (Option.map (fun final =>
        ({ query := q,
           report := messageContent (final.messages.getLastD (Message.human "")),
           iterations := final.iteration,
           findings_count := final.findings.length } : ResearchResult))) =
      .ok (some res) := h
  cases hr : (runFrom llm search fetch fuel 0 Node.planner (initialState q mi)).2 with
  | error e => rw [hr] at h2; simp [Except.map] at h2
  | ok o =>
    rw [hr] at h2
    cases o with
    | none => simp [Except.map] at h2
    | some final =>
      simp only [Except.map, Option.map, Except.ok.injEq, Option.some.injEq] at h2
      exact ⟨final, rfl, by rw [← h2], by rw [← h2]⟩

lemma research_error {llm : LLM} {search : SearchImpl} {fetch : FetchImpl}
    {fuel : Nat} {q : String} {mi : Nat} {e : String}
    (h : (research llm search fetch fuel q mi).2 = .error e) :
    (runFrom llm search fetch fuel 0 Node.planner (initialState q mi)).2 = .error e := by
  have h2 : ((runFrom llm search fetch fuel 0 Node.planner (initialState q mi)).2).map
      (Option.map (fun final =>
        ({ query := q,
           report := messageContent (final.messages.getLastD (Message.human "")),
           iterations := final.iteration,
           findings_count := final.findings.length } : ResearchResult))) =
      .error e := h
  cases hr : (runFrom llm search fetch fuel 0 Node.planner (initialState q mi)).2 with
  | error e2 =>
    rw [hr] at h2
    simp only [Except.map, Except.error.injEq] at h2
    rw [h2]
  | ok o => rw [hr] at h2; simp [Except.map] at h2

/-- Claim C1: for every run started with 1 <= max_iterations <= 10, every
state entered during the workflow keeps the iteration counter at or below
max_iterations, and once iteration has reached max_iterations the
continuation decision after the tools node is unconditionally the
synthesizer, never the researcher or the planner. -/
theorem c1_iteration_bounded (llm : LLM) (search : SearchImpl) (fetch : FetchImpl)
    (fuel : Nat) (q : String) (mi : Nat) (h1 : 1 ≤ mi) (h10 : mi ≤ 10) :
    (∀ p ∈ (research llm search fetch fuel q mi).1,
        p.2.iteration ≤ p.2.max_iterations) ∧
    (∀ st : ResearchState, st.max_iterations ≤ st.iteration →
        should_continue_research st = Node.synthesizer) := by
  constructor
  · intro p hp
    rw [research_fst] at hp
    cases fuel with
    | zero =>
      rw [runFrom_zero] at hp
      dsimp only at hp
      simp only [List.mem_singleton] at hp
      subst hp
      simp [initialState]
    | succ m =>
      cases h : plannerNode llm 0 (initialState q mi) with
      | error e =>
        rw [runFrom_succ_planner_error h] at hp
        dsimp only at hp
        simp only [List.mem_singleton] at hp
        subst hp
        simp [initialState]
      | ok pr =>
        obtain ⟨st', k'⟩ := pr
        obtain ⟨hi, hm, -⟩ := plannerNode_ok_fields h
        rw [runFrom_succ_planner_ok h] at hp
        dsimp only at hp
        simp only [List.mem_cons] at hp
        rcases hp with hp | hp
        · subst hp
          simp [initialState]
        · obtain ⟨ih1, -, -⟩ :=
            runFrom_from_nonplanner llm search fetch m k' Node.researcher st' (by simp)
          obtain ⟨a, b⟩ := ih1 p hp
          rw [a, b, hi, hm]
          simp only [initialState]
          omega
  · intro st hst
    exact should_continue_research_at_bound hst

/-- Witness for C1: a run with max_iterations = 3, and the continuation
decision at a state whose counter has reached the bound. -/
theorem c1_iteration_bounded_witness :
    should_continue_research
      { messages := [], research_query := "What are recent advances in AI?",
        findings := [], iteration := 3, max_iterations := 3 } = Node.synthesizer :=
  (c1_iteration_bounded llmOkNoTools searchOk fetchOk 6
      "What are recent advances in AI?" 3 (by decide) (by decide)).2
    { messages := [], research_query := "What are recent advances in AI?",
      findings := [], iteration := 3, max_iterations := 3 } (by decide)

/-- Claim C2: for every run with max_iterations = N (1 <= N <= 10), the
workflow never re-enters the researcher after the iteration counter has
reached N (at most one researcher entry occurs at the bound), and for a
completed run findings_count equals the number of synthesizer passes in
the trace, which is at least 1. -/
theorem c2_findings_count_synthesis_passes (llm : LLM) (search : SearchImpl)
    (fetch : FetchImpl) (fuel : Nat) (q : String) (N : Nat)
    (h1 : 1 ≤ N) (h10 : N ≤ 10) :
    researcherAtBoundCount (research llm search fetch fuel q N).1 ≤ 1 ∧
    (∀ res, (research llm search fetch fuel q N).2 = .ok (some res) →
        res.findings_count =
          nodeCount Node.synthesizer (research llm search fetch fuel q N).1 ∧
        1 ≤ res.findings_count) := by
  constructor
  · rw [research_fst]
    cases fuel with
    | zero =>
      rw [runFrom_zero]
      dsimp only
      simp [researcherAtBoundCount, researcherAtBound]
    | succ m =>
      cases h : plannerNode llm 0 (initialState q N) with
      | error e =>
        rw [runFrom_succ_planner_error h]
        dsimp only
        simp [researcherAtBoundCount, researcherAtBound]
      | ok pr =>
        obtain ⟨st', k'⟩ := pr
        obtain ⟨hi, hm, -⟩ := plannerNode_ok_fields h
        have hi1 : st'.iteration = 1 := by rw [hi]; rfl
        have hmN : st'.max_iterations = N := by rw [hm]; rfl
        rw [runFrom_succ_planner_ok h]
        dsimp only
        simp only [researcherAtBoundCount, List.countP_cons]
        have hhead : researcherAtBound (Node.planner, initialState q N) = false := by
          simp [researcherAtBound]
        rw [hhead]
        simp only [Bool.false_eq_true, if_false, Nat.add_zero]
        obtain ⟨ih1, -, -⟩ :=
          runFrom_from_nonplanner llm search fetch m k' Node.researcher st' (by simp)
        by_cases hN : N ≤ 1
        · have hb : st'.max_iterations ≤ st'.iteration := by rw [hi1, hmN]; omega
          have hcount := runFrom_atBound_researcherCount llm search fetch m k'
            Node.researcher st' (by simp) hb
          rw [if_pos rfl] at hcount
          calc (runFrom llm search fetch m k' Node.researcher st').1.countP
                researcherAtBound
              ≤ nodeCount Node.researcher
                  (runFrom llm search fetch m k' Node.researcher st').1 :=
                List.countP_mono_left (by
                  intro a ha hpa
                  simp only [researcherAtBound, Bool.and_eq_true, decide_eq_true_eq] at hpa
                  simp [hpa.1])
            _ ≤ 1 := hcount
        · have : ∀ a ∈ (runFrom llm search fetch m k' Node.researcher st').1,
              ¬(researcherAtBound a = true) := by
            intro a ha
            obtain ⟨ha1, ha2⟩ := ih1 a ha
            simp only [researcherAtBound, Bool.and_eq_true, decide_eq_true_eq]
            rintro ⟨-, hb⟩
            rw [ha1, ha2, hi1, hmN] at hb
            omega
          rw [List.countP_eq_zero.mpr this]
          omega
  · intro res hres
    obtain ⟨final, hfin, hit, hfc⟩ := research_snd_ok_some hres
    cases fuel with
    | zero =>
      rw [runFrom_zero] at hfin
      simp at hfin
    | succ m =>
      cases h : plannerNode llm 0 (initialState q N) with
      | error e =>
        rw [runFrom_succ_planner_error h] at hfin
        simp at hfin
      | ok pr =>
        obtain ⟨st', k'⟩ := pr
        obtain ⟨-, -, hf⟩ := plannerNode_ok_fields h
        have hf0 : st'.findings = [] := by rw [hf]; rfl
        rw [runFrom_succ_planner_ok h] at hfin
        dsimp only at hfin
        obtain ⟨-, -, ih3⟩ :=
          runFrom_from_nonplanner llm search fetch m k' Node.researcher st' (by simp)
        obtain ⟨-, -, hlen, hsc⟩ := ih3 final hfin
        rw [hf0] at hlen
        simp only [List.length_nil, Nat.zero_add] at hlen
        rw [research_fst, runFrom_succ_planner_ok h]
        dsimp only
        rw [nodeCount_cons_ne (by simp), hsc, hfc, hlen]
        omega

/-- Witness for C2: the researcher-at-bound count of a concrete completed
run with max_iterations = 1 that does enter the tools node. -/
theorem c2_findings_count_synthesis_passes_witness :
    researcherAtBoundCount (research llmOneSearch searchOk fetchOk 8 "q12345" 1).1 ≤ 1 :=
  (c2_findings_count_synthesis_passes llmOneSearch searchOk fetchOk 8 "q12345" 1
    (by decide) (by decide)).1

/-- Claim C3: the iteration counter is incremented only by the planner
node (the researcher, tools and synthesizer nodes preserve it and the
planner adds exactly 1), the planner is entered exactly once per run,
every completed run returns iterations = 1, and for max_iterations >= 2
the continuation decision after the tools node always routes back to the
researcher — the trace never steps tools -> synthesizer, so the loop can
only end when the model stops requesting tool calls. -/
theorem c3_single_planner_pass (llm : LLM) (search : SearchImpl) (fetch : FetchImpl)
    (fuel : Nat) (q : String) (mi : Nat) :
    (∀ k st st' k', researcherNode llm k st = .ok (st', k') →
        st'.iteration = st.iteration) ∧
    (∀ st, (toolsNode search fetch st).iteration = st.iteration) ∧
    (∀ k st st' k', synthesizerNode llm k st = .ok (st', k') →
        st'.iteration = st.iteration) ∧
    (∀ k st st' k', plannerNode llm k st = .ok (st', k') →
        st'.iteration = st.iteration + 1) ∧
    nodeCount Node.planner (research llm search fetch fuel q mi).1 = 1 ∧
    (∀ res, (research llm search fetch fuel q mi).2 = .ok (some res) →
        res.iterations = 1) ∧
    (2 ≤ mi → hasToolsToSynth (research llm search fetch fuel q mi).1 = false) := by
  refine ⟨?_, ?_, ?_, ?_, ?_, ?_, ?_⟩
  · intro k st st' k' h
    exact (researcherNode_ok_fields h).1
  · intro st
    exact (toolsNode_fields search fetch st).1
  · intro k st st' k' h
    exact (synthesizerNode_ok_fields h).1
  · intro k st st' k' h
    exact (plannerNode_ok_fields h).1
  · rw [research_fst]
    cases fuel with
    | zero =>
      rw [runFrom_zero]
      dsimp only
      rw [@nodeCount_cons_eq (Node.planner, initialState q mi) Node.planner rfl,
        nodeCount_nil]
    | succ m =>
      cases h : plannerNode llm 0 (initialState q mi) with
      | error e =>
        rw [runFrom_succ_planner_error h]
        dsimp only
        rw [@nodeCount_cons_eq (Node.planner, initialState q mi) Node.planner rfl,
          nodeCount_nil]
      | ok pr =>
        obtain ⟨st', k'⟩ := pr
        rw [runFrom_succ_planner_ok h]
        dsimp only
        rw [@nodeCount_cons_eq (Node.planner, initialState q mi) Node.planner rfl]
        obtain ⟨-, ih2, -⟩ :=
          runFrom_from_nonplanner llm search fetch m k' Node.researcher st' (by simp)
        rw [ih2]
  · intro res hres
    obtain ⟨final, hfin, hit, -⟩ := research_snd_ok_some hres
    cases fuel with
    | zero =>
      rw [runFrom_zero] at hfin
      simp at hfin
    | succ m =>
      cases h : plannerNode llm 0 (initialState q mi) with
      | error e =>
        rw [runFrom_succ_planner_error h] at hfin
        simp at hfin
      | ok pr =>
        obtain ⟨st', k'⟩ := pr
        obtain ⟨hi, -, -⟩ := plannerNode_ok_fields h
        have hi1 : st'.iteration = 1 := by rw [hi]; rfl
        rw [runFrom_succ_planner_ok h] at hfin
        dsimp only at hfin
        obtain ⟨-, -, ih3⟩ :=
          runFrom_from_nonplanner llm search fetch m k' Node.researcher st' (by simp)
        obtain ⟨hfi, -, -⟩ := ih3 final hfin
        rw [hit, hfi, hi1]
  · intro h2
    rw [research_fst]
    cases fuel with
    | zero =>
      rw [runFrom_zero]
      exact hasToolsToSynth_singleton _
    | succ m =>
      cases h : plannerNode llm 0 (initialState q mi) with
      | error e =>
        rw [runFrom_succ_planner_error h]
        exact hasToolsToSynth_singleton _
      | ok pr =>
        obtain ⟨st', k'⟩ := pr
        obtain ⟨hi, hm, -⟩ := plannerNode_ok_fields h
        have hb : st'.iteration < st'.max_iterations := by
          have hi1 : st'.iteration = 1 := by rw [hi]; rfl
          have hmN : st'.max_iterations = mi := by rw [hm]; rfl
          rw [hi1, hmN]
          omega
        have hsub := runFrom_below_bound_noToolsToSynth llm search fetch m k'
          Node.researcher st' (by simp) hb
        rw [runFrom_succ_planner_ok h]
        dsimp only
        cases hls : (runFrom llm search fetch m k' Node.researcher st').1 with
        | nil =>
          have hhd := runFrom_head llm search fetch m k' Node.researcher st'
          rw [hls] at hhd
          simp at hhd
        | cons b rest =>
          rw [hls] at hsub
          rw [hasToolsToSynth_cons, hsub]
          simp

/-- Witness for C3: a concrete run with max_iterations = 3 whose model
requests one tool call — the trace enters the tools node yet never steps
from tools to the synthesizer. -/
theorem c3_single_planner_pass_witness :
    hasToolsToSynth
      (research llmOneSearch searchOk fetchOk 8 "What are recent advances in AI?" 3).1 =
      false :=
  (c3_single_planner_pass llmOneSearch searchOk fetchOk 8
    "What are recent advances in AI?" 3).2.2.2.2.2.2 (by decide)

set_option maxRecDepth 4096 in
/-- Claim C4 is refuted by c4_counterexample: the ResearchRequest schema
places no upper bound on the query length, so a 1001-character query is
accepted there (while AgentInput rejects it). -/
theorem c4_counterexample :
    researchRequestAccepts (String.mk (List.replicate 1001 'a')) (some 3) = true ∧
    (String.mk (List.replicate 1001 'a')).length = 1001 ∧
    agentInputAccepts (String.mk (List.replicate 1001 'a')) (some 3) = false := by
  refine ⟨?_, ?_, ?_⟩
  · simp [researchRequestAccepts, String.length]
  · simp [String.length]
  · simp [agentInputAccepts, String.length]

/-- Claim C4 (amended): AgentInput accepts exactly the requests whose
query length is in [5,1000] with max_iterations in [1,10] when supplied;
ResearchRequest accepts exactly those with query length >= 5 (no upper
bound) and max_iterations in [1,10] when supplied; both default
max_iterations to 3 when omitted. -/
theorem c4_validation_bounds (q : String) (mi : Option Int) :
    (agentInputAccepts q mi = true ↔
      5 ≤ q.length ∧ q.length ≤ 1000 ∧ ∀ m, mi = some m → 1 ≤ m ∧ m ≤ 10) ∧
    (researchRequestAccepts q mi = true ↔
      5 ≤ q.length ∧ ∀ m, mi = some m → 1 ≤ m ∧ m ≤ 10) ∧
    appliedMaxIterations none = 3 := by
  cases mi with
  | none =>
    simp [agentInputAccepts, researchRequestAccepts, appliedMaxIterations]
  | some m =>
    simp [agentInputAccepts, researchRequestAccepts, appliedMaxIterations, and_assoc]

/-- Witness for C4 (amended): a well-formed request is accepted by the
AgentInput schema. -/
theorem c4_validation_bounds_witness :
    agentInputAccepts "What are recent advances in AI?" (some 3) = true :=
  (c4_validation_bounds "What are recent advances in AI?" (some 3)).1.mpr
    ⟨by decide, by decide, fun m hm => by
      cases hm
      exact ⟨by decide, by decide⟩⟩

/-- Claim C5 is refuted by c5_counterexample: when every LLM call raises,
the synchronous endpoint does return HTTP 500 "Research failed: <cause>",
but the streaming endpoint returns an HTTP 200 event stream (the error
only appears as a data event), so the failure status is not reported for
streaming requests. -/
theorem c5_counterexample :
    (conduct_research_streaming llmFail searchOk fetchOk 8
        { query := "What are recent advances in AI?", max_iterations := 3 }).1 = 200 ∧
    ¬((conduct_research_streaming llmFail searchOk fetchOk 8
        { query := "What are recent advances in AI?", max_iterations := 3 }).1 = 500) ∧
    conduct_research llmFail searchOk fetchOk 8 true
        { query := "What are recent advances in AI?", max_iterations := 3 } =
      .error ⟨500, "Research failed: boom"⟩ := by
  refine ⟨rfl, by decide, rfl⟩

/-- Claim C5 (amended): if an LLM invocation raises during the run, the
synchronous research endpoint aborts with HTTP 500 and detail
"Research failed: <cause>" (no report body), while the streaming endpoint
responds HTTP 200 and ends its stream with a "data: Error: <cause>"
event instead. -/
theorem c5_provider_failure (llm : LLM) (search : SearchImpl) (fetch : FetchImpl)
    (fuel : Nat) (req : ResearchRequest) (e : String)
    (h : (research llm search fetch fuel req.query req.max_iterations).2 = .error e) :
    conduct_research llm search fetch fuel true req =
      .error ⟨500, "Research failed: " ++ e⟩ ∧
    (conduct_research_streaming llm search fetch fuel req).1 = 200 ∧
    (conduct_research_streaming llm search fetch fuel req).2.getLast? =
      some ("data: Error: " ++ e ++ "\n\n") := by
  refine ⟨?_, rfl, ?_⟩
  · simp [conduct_research, h]
  · simp [conduct_research_streaming, h, List.getLast?]

/-- Witness for C5 (amended): a concrete run whose first LLM call raises
"boom" yields the 500 failure on the synchronous endpoint. -/
theorem c5_provider_failure_witness :
    conduct_research llmFail searchOk fetchOk 8 true
        { query := "hello world query", max_iterations := 3 } =
      .error ⟨500, "Research failed: boom"⟩ :=
  (c5_provider_failure llmFail searchOk fetchOk 8
    { query := "hello world query", max_iterations := 3 } "boom" rfl).1

/-- Claim C6: a raising search tool yields the string "Search error: "
followed by the exception text, a raising fetch tool yields
"Fetch error: " likewise, and no run ever aborts because of a tool: every
exception escaping the workflow originates in an LLM invocation. -/
theorem c6_tool_failures_fail_soft (llm : LLM) (search : SearchImpl)
    (fetch : FetchImpl) (q u e : String) :
    (search q = .error e → web_search search q = "Search error: " ++ e) ∧
    (fetch u = .error e → fetch_webpage fetch u = "Fetch error: " ++ e) ∧
    (∀ fuel k n st e2, (runFrom llm search fetch fuel k n st).2 = .error e2 →
        ∃ j msgs, llm j msgs = .error e2) := by
  refine ⟨?_, ?_, ?_⟩
  · intro h
    unfold web_search
    rw [h]
  · intro h
    unfold fetch_webpage
    rw [h]
  · intro fuel k n st e2 he
    exact runFrom_error_from_llm llm search fetch fuel k n st e2 he

/-- Witness for C6: the concrete always-raising search oracle produces
the error-describing string. -/
theorem c6_tool_failures_fail_soft_witness :
    web_search searchFail "ai trends" = "Search error: rate limited" :=
  (c6_tool_failures_fail_soft llmOkNoTools searchFail fetchOk
    "ai trends" "http://example.com" "rate limited").1 rfl

/-- Claim C7: constructing a ToolCallResult with a null result always
normalizes the result to the empty string, and a string or mapping result
is preserved unchanged. -/
theorem c7_toolcallresult_normalizes_null (n : String) (b : Bool) (s : String)
    (m : List (String × String)) :
    mkToolCallResult n b ToolResultValue.nullv =
      { tool_name := n, success := b, result := ToolResultValue.str "" } ∧
    mkToolCallResult n b (ToolResultValue.str s) =
      { tool_name := n, success := b, result := ToolResultValue.str s } ∧
    mkToolCallResult n b (ToolResultValue.dict m) =
      { tool_name := n, success := b, result := ToolResultValue.dict m } :=
  ⟨rfl, rfl, rfl⟩

/-- Claim C8: summarize_findings returns the "\n---\n"-join of a
duplicate-free list containing exactly the distinct elements of the
input (exact-match set deduplication; the order of that list is not part
of the contract). -/
theorem c8_summarize_findings_dedup (fs : List String) :
    ∃ u : List String, summarize_findings fs = String.intercalate "\n---\n" u ∧
      u.Nodup ∧ ∀ x, x ∈ u ↔ x ∈ fs :=
  ⟨fs.dedup, rfl, List.nodup_dedup fs, fun _ => List.mem_dedup⟩

lemma data_prefix_split (b s t : String) :
    ("data: " ++ b) ++ s ++ t = "data: " ++ (b ++ s ++ t) := by
  simp [String.append_assoc]

lemma done_ne_start_event (q : String) :
    "data: [DONE]\n\n" ≠ "data: Starting research for: " ++ q ++ "\n\n" := by
  intro h
  have hl := congrArg String.length h
  rw [String.length_append, String.length_append] at hl
  have h1 : ("data: [DONE]\n\n" : String).length = 14 := by decide
  have h2 : ("data: Starting research for: " : String).length = 29 := by decide
  have h3 : ("\n\n" : String).length = 2 := by decide
  rw [h1, h2, h3] at hl
  omega

lemma done_ne_error_event (e : String) :
    "data: [DONE]\n\n" ≠ "data: Error: " ++ e ++ "\n\n" := by
  intro h
  have hl := congrArg String.length h
  rw [String.length_append, String.length_append] at hl
  have h1 : ("data: [DONE]\n\n" : String).length = 14 := by decide
  have h2 : ("data: Error: " : String).length = 13 := by decide
  have h3 : ("\n\n" : String).length = 2 := by decide
  rw [h1, h2, h3] at hl
  omega

/-- Claim C9 is refuted by c9_counterexample: when the research call
raises, the stream ends with the "data: Error: <cause>" event and the
"data: [DONE]" sentinel is never emitted. -/
theorem c9_counterexample :
    (conduct_research_streaming llmFail searchOk fetchOk 8
        { query := "hello world query", max_iterations := 3 }).2.getLast? =
      some "data: Error: boom\n\n" ∧
    "data: [DONE]\n\n" ∉ (conduct_research_streaming llmFail searchOk fetchOk 8
        { query := "hello world query", max_iterations := 3 }).2 := by
  refine ⟨rfl, by decide⟩

/-- Claim C9 (amended): every event in the stream has the form
"data: <text>", and the stream ends with "data: [DONE]" when the research
call succeeds; when it raises, the stream instead ends with
"data: Error: <cause>" and contains no "data: [DONE]" sentinel. -/
theorem c9_stream_events (llm : LLM) (search : SearchImpl) (fetch : FetchImpl)
    (fuel : Nat) (req : ResearchRequest) :
    (∀ ev ∈ (conduct_research_streaming llm search fetch fuel req).2,
        ∃ t, ev = "data: " ++ t) ∧
    (∀ res, (research llm search fetch fuel req.query req.max_iterations).2 =
        .ok (some res) →
      (conduct_research_streaming llm search fetch fuel req).2.getLast? =
        some "data: [DONE]\n\n") ∧
    (∀ e, (research llm search fetch fuel req.query req.max_iterations).2 = .error e →
      (conduct_research_streaming llm search fetch fuel req).2.getLast? =
        some ("data: Error: " ++ e ++ "\n\n") ∧
      "data: [DONE]\n\n" ∉ (conduct_research_streaming llm search fetch fuel req).2) := by
  refine ⟨?_, ?_, ?_⟩
  · intro ev hev
    simp only [conduct_research_streaming] at hev
    cases hout : (research llm search fetch fuel req.query req.max_iterations).2 with
    | error e =>
      rw [hout] at hev
      simp only [List.mem_cons, List.mem_singleton, List.not_mem_nil, or_false] at hev
      rcases hev with hev | hev
      · exact ⟨"Starting research for: " ++ req.query ++ "\n\n", by
          rw [hev,
            show ("data: Starting research for: " : String) =
              "data: " ++ "Starting research for: " from rfl,
            data_prefix_split]⟩
      · exact ⟨"Error: " ++ e ++ "\n\n", by
          rw [hev,
            show ("data: Error: " : String) = "data: " ++ "Error: " from rfl,
            data_prefix_split]⟩
    | ok o =>
      cases o with
      | none =>
        rw [hout] at hev
        simp only [List.mem_cons, List.mem_singleton, List.not_mem_nil, or_false] at hev
        rcases hev with hev | hev
        · exact ⟨"Starting research for: " ++ req.query ++ "\n\n", by
            rw [hev,
              show ("data: Starting research for: " : String) =
                "data: " ++ "Starting research for: " from rfl,
              data_prefix_split]⟩
        · exact ⟨"Error: " ++ recursionLimitMessage ++ "\n\n", by
            rw [hev,
              show ("data: Error: " : String) = "data: " ++ "Error: " from rfl,
              data_prefix_split]⟩
      | some res =>
        rw [hout] at hev
        simp only [List.mem_cons, List.mem_singleton, List.not_mem_nil, or_false] at hev
        rcases hev with hev | hev | hev
        · exact ⟨"Starting research for: " ++ req.query ++ "\n\n", by
            rw [hev,
              show ("data: Starting research for: " : String) =
                "data: " ++ "Starting research for: " from rfl,
              data_prefix_split]⟩
        · exact ⟨res.report ++ "\n\n", by rw [hev, String.append_assoc]⟩
        · exact ⟨"[DONE]\n\n", by rw [hev]; rfl⟩
  · intro res h
    simp [conduct_research_streaming, h, List.getLast?]
  · intro e h
    refine ⟨by simp [conduct_research_streaming, h, List.getLast?], ?_⟩
    intro hmem
    simp only [conduct_research_streaming] at hmem
    rw [h] at hmem
    simp only [List.mem_cons, List.mem_singleton, List.not_mem_nil, or_false] at hmem
    rcases hmem with hmem | hmem
    · exact done_ne_start_event req.query hmem
    · exact done_ne_error_event e hmem

/-- Witness for C9 (amended): a concrete successful run whose stream ends
with the DONE sentinel. -/
theorem c9_stream_events_witness :
    (conduct_research_streaming llmOkNoTools searchOk fetchOk 6
        { query := "What are recent advances in AI?", max_iterations := 3 }).2.getLast? =
      some "data: [DONE]\n\n" :=
  (c9_stream_events llmOkNoTools searchOk fetchOk 6
      { query := "What are recent advances in AI?", max_iterations := 3 }).2.1
    { query := "What are recent advances in AI?", report := "stub report",
      iterations := 1, findings_count := 1 } rfl

/-- Claim C10: with the API_KEY environment variable unset, verify_api_key
accepts exactly the hard-coded fallback "your-secret-key" and raises
HTTP 401 with detail "Invalid API key" for every other header value. -/
theorem c10_fallback_api_key (h : String) :
    (verify_api_key none h = .ok h ↔ h = "your-secret-key") ∧
    (h ≠ "your-secret-key" →
      verify_api_key none h = .error ⟨401, "Invalid API key"⟩) := by
  constructor
  · constructor
    · intro hok
      by_contra hne
      simp [verify_api_key, hne] at hok
    · intro he
      subst he
      simp [verify_api_key]
  · intro hne
    simp [verify_api_key, hne]

/-- Witness for C10: a wrong header value is rejected with 401. -/
theorem c10_fallback_api_key_witness :
    verify_api_key none "wrong-key" = .error ⟨401, "Invalid API key"⟩ :=
  (c10_fallback_api_key "wrong-key").2 (by decide)
